import Mathlib

/-!
Verification development for the vkd3d-proton source patcher
(src/patches/patcher.py, src/patches/performance.py, src/scripts/patcher.py).

The three Python scripts are rule-driven text rewriters built on Python's
`re` module.  We embed, executably:

* a regex engine covering exactly the constructs the shipped rules use
  (literal characters, single-character classes, greedy `*`/`+` over a
  class, capturing groups, negative lookbehind/lookahead over a character
  class, word boundary `\b`, `.`, `^`), parameterised by the MULTILINE and
  DOTALL flags, with Python's leftmost, greedy-with-backtracking,
  non-overlapping global scan semantics (`re.findall` / `re.sub`);
* the per-rule application loop shared (verbatim, up to flags) by
  `VKD3DPatcher._apply_patches_to_file` in patches/patcher.py
  (re.MULTILINE), the copy in performance.py (re.MULTILINE|re.DOTALL) and
  `V3XPatcher._apply_content` in scripts/patcher.py (re.MULTILINE);
* the file-level read/rewrite/write step over an explicit file-system map,
  with a `writeOk` parameter modelling whether the write syscall succeeds;
* result accumulation (`_accumulate_result` / the lock-guarded merge /
  the V3X instance counters) and the process exit computation.

Patterns appear as abstract syntax trees: a reviewer diffs each tree
against the regex string in the source.  Since patterns are data (not
parsed strings), the `except re.error` branches of the sources are dead
in the embedding; the spec classifies non-compiling patterns as fatal
configuration errors, so nothing settled here depends on that branch.
-/

/-- Python `\w` on the ASCII range (all file content involved is ASCII). -/
def isWordChar (c : Char) : Bool := c.isAlpha || c.isDigit || c == '_'

/-- Python `\s` on the ASCII range. -/
def wsChars : List Char := [' ', '\t', '\n', '\x0b', '\x0c', '\r']

/-- Python decimal digits `\d` (ASCII). -/
def digitChars : List Char := ['0','1','2','3','4','5','6','7','8','9']

/-- Regex abstract syntax: the constructs used by the shipped rules. -/
inductive Re where
  | eps
  | lit (c : Char)
  | cls (neg : Bool) (cs : List Char)
  | anyc
  | bol
  | seq (a b : Re)
  | grp (n : Nat) (r : Re)
  | starCls (neg : Bool) (cs : List Char)
  | plusCls (neg : Bool) (cs : List Char)
  | nlb (cs : List Char)
  | nla (cs : List Char)
  | wordB
  deriving Repr, DecidableEq

/-- Literal string: sequence of literal characters (`re.escape`d text). -/
def litStr : List Char → Re
  | [] => .eps
  | c :: cs => .seq (.lit c) (litStr cs)

/-- Does character `c` satisfy the (possibly negated) class? -/
def clsMatch (neg : Bool) (cs : List Char) (c : Char) : Bool :=
  if neg then !(cs.contains c) else cs.contains c

/-- Length of the maximal run of class characters starting at `i`. -/
def munch (neg : Bool) (cs : List Char) (s : List Char) (i : Nat) : Nat :=
  ((s.drop i).takeWhile (clsMatch neg cs)).length

/-- Captured groups: (group index, start, end), most recent first. -/
abbrev Caps := List (Nat × Nat × Nat)

def capLookup (g : Caps) (n : Nat) : Option (Nat × Nat) :=
  match g with
  | [] => none
  | (m, a, b) :: rest => if m = n then some (a, b) else capLookup rest n

/--
All ways the expression can match starting at position `i`, as
(end position, captures), in backtracking priority order (greedy
quantifiers longest first), exactly as Python's engine explores them.
`ml`/`da` are the MULTILINE and DOTALL compile flags.
-/
def reMatches (ml da : Bool) (s : List Char) : Re → Nat → Caps → List (Nat × Caps)
  | .eps, i, g => [(i, g)]
  | .lit c, i, g =>
      match s[i]? with
      | some d => if d = c then [(i + 1, g)] else []
      | none => []
  | .cls neg cs, i, g =>
      match s[i]? with
      | some d => if clsMatch neg cs d then [(i + 1, g)] else []
      | none => []
  | .anyc, i, g =>
      match s[i]? with
      | some d => if da || d != '\n' then [(i + 1, g)] else []
      | none => []
  | .bol, i, g =>
      if i = 0 then [(i, g)]
      else if ml && s[i - 1]? = some '\n' then [(i, g)] else []
  | .seq a b, i, g =>
      (reMatches ml da s a i g).flatMap (fun p => reMatches ml da s b p.1 p.2)
  | .grp n r, i, g =>
      (reMatches ml da s r i g).map (fun p => (p.1, (n, i, p.1) :: p.2))
  | .starCls neg cs, i, g =>
      (List.range (munch neg cs s i + 1)).reverse.map (fun k => (i + k, g))
  | .plusCls neg cs, i, g =>
      (List.range (munch neg cs s i)).reverse.map (fun k => (i + k + 1, g))
  | .nlb cs, i, g =>
      if i = 0 then [(i, g)]
      else
        match s[i - 1]? with
        | some d => if cs.contains d then [] else [(i, g)]
        | none => [(i, g)]
  | .nla cs, i, g =>
      match s[i]? with
      | some d => if cs.contains d then [] else [(i, g)]
      | none => [(i, g)]
  | .wordB, i, g =>
      let prev := if i = 0 then false else
        match s[i - 1]? with
        | some c => isWordChar c
        | none => false
      let next :=
        match s[i]? with
        | some c => isWordChar c
        | none => false
      if prev != next then [(i, g)] else []

/-- The match the backtracking engine returns at position `i`, if any. -/
def firstMatchAt (ml da : Bool) (r : Re) (s : List Char) (i : Nat) :
    Option (Nat × Caps) :=
  (reMatches ml da s r i []).head?

/--
Left-to-right non-overlapping scan from position `i` (fuel-indexed):
the matches `re.finditer`/`re.findall`/`re.sub` operate on.  After a
match the scan resumes at its end (one past it when the match is empty).
-/
def scanFrom (ml da : Bool) (r : Re) (s : List Char) :
    Nat → Nat → List (Nat × Nat × Caps)
  | 0, _ => []
  | fuel + 1, i =>
      if i > s.length then []
      else
        match firstMatchAt ml da r s i with
        | some (e, g) => (i, e, g) :: scanFrom ml da r s fuel (if e > i then e else i + 1)
        | none => scanFrom ml da r s fuel (i + 1)

def reScan (ml da : Bool) (r : Re) (s : List Char) : List (Nat × Nat × Caps) :=
  scanFrom ml da r s (s.length + 2) 0

/-- `len(regex.findall(s))`: number of non-overlapping matches. -/
def reCount (ml da : Bool) (r : Re) (s : List Char) : Nat :=
  (reScan ml da r s).length

/-- A replacement template piece: literal text or `\g<n>` back-reference. -/
inductive ReplPart where
  | str (t : List Char)
  | grp (n : Nat)
  deriving Repr, DecidableEq

/-- Expand a replacement template against one match's captures. -/
def expandRepl (s : List Char) (g : Caps) : List ReplPart → List Char
  | [] => []
  | .str t :: rest => t ++ expandRepl s g rest
  | .grp n :: rest =>
      (match capLookup g n with
       | some (a, b) => (s.drop a).take (b - a)
       | none => []) ++ expandRepl s g rest

def substAux (s : List Char) (repl : List ReplPart) :
    List (Nat × Nat × Caps) → Nat → List Char
  | [], last => s.drop last
  | (st, en, g) :: rest, last =>
      ((s.drop last).take (st - last)) ++ expandRepl s g repl ++ substAux s repl rest en

/-- `regex.sub(replacement, s)`: replace every non-overlapping match. -/
def reSub (ml da : Bool) (r : Re) (repl : List ReplPart) (s : List Char) : List Char :=
  substAux s repl (reScan ml da r s) 0

/-!
## Rules and the per-content application loop

A rule is the `(pattern, replacement, name)` tuple of the Python sources.
-/

structure PRule where
  pattern : Re
  repl : List ReplPart
  name : String
  deriving Repr, DecidableEq

/-- Output of one rule-set pass over one content buffer. -/
structure PassOut where
  content : List Char
  applied : Nat
  skipped : Nat
  changes : List (String × Nat)
  deriving Repr, DecidableEq

/--
The per-rule loop shared by `VKD3DPatcher._apply_patches_to_file`
(src/patches/patcher.py lines 218-231, compiled with `re.MULTILINE`, so
`da = false`), its copy in src/patches/performance.py lines 194-203
(compiled with `re.MULTILINE | re.DOTALL`, so `da = true`) and
`V3XPatcher._apply_content` (src/scripts/patcher.py lines 110-127,
`re.MULTILINE`, `da = false`): for each rule in order, count matches in
the current buffer; if positive, substitute (only when not in dry-run),
add the count to `applied` and record `(name, count)`; otherwise
increment `skipped` by one.
-/
def applyRulesLoop (da dry : Bool) : List Char → List PRule → PassOut
  | content, [] => ⟨content, 0, 0, []⟩
  | content, r :: rest =>
      let m := reCount true da r.pattern content
      if m > 0 then
        let content' := if dry then content else reSub true da r.pattern r.repl content
        let out := applyRulesLoop da dry content' rest
        ⟨out.content, m + out.applied, out.skipped, (r.name, m) :: out.changes⟩
      else
        let out := applyRulesLoop da dry content rest
        ⟨out.content, out.applied, out.skipped + 1, out.changes⟩

/--
Specification mirror of the loop's sequence of per-rule match counts:
each rule's count against the buffer as of its turn (the buffer advances
past a substitution only when the rule matched and dry-run is off).
-/
def ruleCountsSeq (da dry : Bool) : List Char → List PRule → List Nat
  | _, [] => []
  | content, r :: rest =>
      let m := reCount true da r.pattern content
      m :: ruleCountsSeq da dry
        (if m > 0 && !dry then reSub true da r.pattern r.repl content else content) rest

/-!
## File system model and the file-level step

The file system is a path-to-content association list; `writeOk` says
whether the write syscall on a path succeeds (the `except Exception`
around `open(filepath, 'w')`).  Reads of existing files succeed (the
sources open with `errors='ignore'`); a missing path is the
`os.path.exists` early return.
-/

abbrev FS := List (String × List Char)

def fsLookup : FS → String → Option (List Char)
  | [], _ => none
  | (q, c) :: rest, p => if q = p then some c else fsLookup rest p

def fsWrite : FS → String → List Char → FS
  | [], p, c => [(p, c)]
  | (q, d) :: rest, p, c => if q = p then (p, c) :: rest else (q, d) :: fsWrite rest p c

/-- `os.path.basename`: the component after the last slash. -/
def basename (p : String) : String :=
  String.mk (p.data.foldl (fun acc c => if c = '/' then [] else acc ++ [c]) [])

/-- A FileChangeRecord: `{'file': basename, 'changes': [(name, matches)]}`. -/
structure Detail where
  file : String
  changes : List (String × Nat)
  deriving Repr, DecidableEq

/-- The tuple `_apply_patches_to_file` returns, plus the file system it leaves. -/
structure FileOut where
  fs : FS
  applied : Nat
  skipped : Nat
  errors : List String
  details : List Detail
  deriving Repr, DecidableEq

/--
`VKD3DPatcher._apply_patches_to_file` (src/patches/patcher.py lines
195-242; the performance.py copy is lines 175-217 with `da = true`):
missing file returns zeros; otherwise run the rule loop on the content;
if the buffer changed and dry-run is off, write it back, recording
`write error <path>` if the write fails (the exception text is
abstracted away); emit one Detail record iff some rule matched.
-/
def applyPatchesToFile (da dry : Bool) (writeOk : String → Bool)
    (fs : FS) (filepath : String) (patches : List PRule) : FileOut :=
  match fsLookup fs filepath with
  | none => ⟨fs, 0, 0, [], []⟩
  | some content =>
      let out := applyRulesLoop da dry content patches
      let wr : FS × List String :=
        if out.content ≠ content ∧ dry = false then
          if writeOk filepath then (fsWrite fs filepath out.content, [])
          else (fs, [("write error ") ++ filepath])
        else (fs, [])
      ⟨wr.1, out.applied, out.skipped, wr.2,
        if out.changes ≠ [] then [⟨basename filepath, out.changes⟩] else []⟩

/-- `_apply_patches_to_file` of src/patches/patcher.py (re.MULTILINE only). -/
def vkd3dApplyFile : Bool → (String → Bool) → FS → String → List PRule → FileOut :=
  applyPatchesToFile false

/-- `_apply_patches_to_file` of src/patches/performance.py (MULTILINE|DOTALL). -/
def perfApplyFile : Bool → (String → Bool) → FS → String → List PRule → FileOut :=
  applyPatchesToFile true

/-!
## Run-level accumulation and exit status
-/

/-- The `PatchResult` dataclass of both patches/ scripts. -/
structure PatchResult where
  applied : Nat
  skipped : Nat
  errors : List String
  details : List Detail
  deriving Repr, DecidableEq

def emptyResult : PatchResult := ⟨0, 0, [], []⟩

/--
A run over a list of (file, rule set) application units, merging each
unit's tuple into the shared accumulator exactly as
`VKD3DPatcher._accumulate_result` (src/patches/patcher.py lines 250-254)
and the lock-guarded merge in performance.py lines 267-271 do.
-/
def runUnits (da dry : Bool) (writeOk : String → Bool) :
    FS → PatchResult → List (String × List PRule) → FS × PatchResult
  | fs, acc, [] => (fs, acc)
  | fs, acc, (fp, ps) :: rest =>
      let o := applyPatchesToFile da dry writeOk fs fp ps
      runUnits da dry writeOk o.fs
        ⟨acc.applied + o.applied, acc.skipped + o.skipped,
         acc.errors ++ o.errors, acc.details ++ o.details⟩ rest

/--
Specification mirror: the flat list of per-(file, rule) match counts a
run produces, in processing order (a missing file contributes no pairs,
matching the zero-count early return).
-/
def runPairCounts (da dry : Bool) (writeOk : String → Bool) :
    FS → List (String × List PRule) → List Nat
  | _, [] => []
  | fs, (fp, ps) :: rest =>
      (match fsLookup fs fp with
       | none => []
       | some c => ruleCountsSeq da dry c ps)
      ++ runPairCounts da dry writeOk (applyPatchesToFile da dry writeOk fs fp ps).fs rest

/--
`apply_all` returns `1 if self.result.errors else 0` and `main` passes it
to `sys.exit` (src/patches/patcher.py lines 294-298 and 391-396;
performance.py lines 277-281 and 319-324).
-/
def exitCode (r : PatchResult) : Nat := if r.errors = [] then 0 else 1

/-!
## The V3X variant (src/scripts/patcher.py)

Instance-level counters instead of a result tuple, plus a `failed`
counter bumped on write failure.
-/

structure V3XDetail where
  f : String
  p : String
  ch : List (String × Nat)
  deriving Repr, DecidableEq

structure V3XState where
  applied : Nat
  skipped : Nat
  failed : Nat
  errors : List String
  details : List V3XDetail
  deriving Repr, DecidableEq

def v3xInit : V3XState := ⟨0, 0, 0, [], []⟩

/--
`V3XPatcher._apply_file` (src/scripts/patcher.py lines 129-150): missing
file returns; run `_apply_content` (the rule loop, re.MULTILINE); add the
counts; append a change record if any rule matched (before the write
attempt, as in the source); write back if the buffer changed and not in
dry-run, appending `W:<path>` and bumping `failed` if the write fails.
-/
def v3xApplyFile (dry : Bool) (writeOk : String → Bool)
    (fs : FS) (st : V3XState) (fp : String) (patches : List PRule) : FS × V3XState :=
  match fsLookup fs fp with
  | none => (fs, st)
  | some content =>
      let out := applyRulesLoop false dry content patches
      let st1 : V3XState :=
        ⟨st.applied + out.applied, st.skipped + out.skipped, st.failed, st.errors,
         if out.changes ≠ [] then st.details ++ [⟨basename fp, fp, out.changes⟩]
         else st.details⟩
      if out.content ≠ content ∧ dry = false then
        if writeOk fp then (fsWrite fs fp out.content, st1)
        else (fs, ⟨st1.applied, st1.skipped, st1.failed + 1,
                   st1.errors ++ [("W:") ++ fp], st1.details⟩)
      else (fs, st1)

/-- The unit loop of `V3XPatcher.apply` (src/scripts/patcher.py lines 179-184). -/
def v3xRun (dry : Bool) (writeOk : String → Bool) :
    FS → V3XState → List (String × List PRule) → FS × V3XState
  | fs, st, [] => (fs, st)
  | fs, st, (fp, ps) :: rest =>
      let o := v3xApplyFile dry writeOk fs st fp ps
      v3xRun dry writeOk o.1 o.2 rest

/--
`V3XPatcher.apply` returns `self.failed == 0 and len(self.errors) == 0`
(line 194) and `main` returns `0 if success else 1` (line 233).
-/
def v3xExit (st : V3XState) : Nat :=
  if st.failed = 0 ∧ st.errors = [] then 0 else 1

/-!
## The shipped capability rules needed by the claims

`make_assignment_pattern` (src/patches/patcher.py lines 34-36) builds
`(?<![=!<>])(\bVAR\s*=\s*)(?![=])([^;]+);` with `VAR` `re.escape`d, and
`RESOURCE_BINDING_PATCHES` (lines 59-65) instantiates it.
-/

def make_assignment_pattern (varPath : String) : Re :=
  .seq (.nlb ['=', '!', '<', '>'])
    (.seq (.grp 1 (.seq .wordB (.seq (litStr varPath.data)
        (.seq (.starCls false wsChars) (.seq (.lit '=') (.starCls false wsChars))))))
      (.seq (.nla ['='])
        (.seq (.grp 2 (.plusCls true [';'])) (.lit ';'))))

def RESOURCE_BINDING_PATCHES : List PRule :=
  [⟨make_assignment_pattern ("options.ResourceBindingTier"),
    [.grp 1, .str ("D3D12_RESOURCE_BINDING_TIER_3;").data], "resource_binding_tier"⟩,
   ⟨make_assignment_pattern ("options.TiledResourcesTier"),
    [.grp 1, .str ("D3D12_TILED_RESOURCES_TIER_4;").data], "tiled_resources_tier"⟩,
   ⟨make_assignment_pattern ("options.ResourceHeapTier"),
    [.grp 1, .str ("D3D12_RESOURCE_HEAP_TIER_2;").data], "resource_heap_tier"⟩,
   ⟨make_assignment_pattern ("options19.MaxSamplerDescriptorHeapSize"),
    [.grp 1, .str ("4096;").data], "max_sampler_heap"⟩,
   ⟨make_assignment_pattern ("options19.MaxViewDescriptorHeapSize"),
    [.grp 1, .str ("1000000;").data], "max_view_heap"⟩]

/-!
## Concrete data used by the claims
-/

/-- The scenario line of spec §8 before patching. -/
def deviceLine1 : String := "    options.ResourceBindingTier = D3D12_RESOURCE_BINDING_TIER_1;\n"

/-- The same line after the `resource_binding_tier` rewrite. -/
def deviceLine3 : String := "    options.ResourceBindingTier = D3D12_RESOURCE_BINDING_TIER_3;\n"

def deviceFS : FS := [(("device.c"), deviceLine1.data)]

def allWritesOk : String → Bool := fun _ => true

def noWritesOk : String → Bool := fun _ => false

def c1FirstPass : FileOut :=
  vkd3dApplyFile false allWritesOk deviceFS ("device.c") RESOURCE_BINDING_PATCHES

def c1SecondPass : FileOut :=
  vkd3dApplyFile false allWritesOk c1FirstPass.fs ("device.c") RESOURCE_BINDING_PATCHES

/-- A rule rewriting `ab` to `cd` (literal pattern, literal replacement). -/
def c2r1 : PRule := ⟨litStr ("ab").data, [.str ("cd").data], "r1"⟩

/-- A rule rewriting `cd` to `ef`: it matches `c2r1`'s output. -/
def c2r2 : PRule := ⟨litStr ("cd").data, [.str ("ef").data], "r2"⟩

/-- A rule whose pattern `a.b` contains an unescaped dot. -/
def dotRule : PRule := ⟨.seq (.lit 'a') (.seq .anyc (.lit 'b')), [.str ("X").data], "dot"⟩

/-- A rule whose pattern `^b` is anchored at line start. -/
def bolRule : PRule := ⟨.seq .bol (.lit 'b'), [.str ("B").data], "caret_b"⟩

/-- A rule rewriting the literal `ab` to `X`. -/
def abRule : PRule := ⟨litStr ("ab").data, [.str ("X").data], "ab"⟩

/-!
## Helper lemmas about the rule loop
-/

theorem applyRulesLoop_counts (da dry : Bool) :
    ∀ (rules : List PRule) (content : List Char),
      (applyRulesLoop da dry content rules).applied =
        (ruleCountsSeq da dry content rules).sum ∧
      (applyRulesLoop da dry content rules).skipped =
        (ruleCountsSeq da dry content rules).countP (· == 0)
  | [], content => by simp [applyRulesLoop, ruleCountsSeq]
  | r :: rest, content => by
      by_cases h : 0 < reCount true da r.pattern content
      · have hne : (reCount true da r.pattern content == 0) = false := by
          simp [Nat.pos_iff_ne_zero.mp h]
        cases dry with
        | true =>
            have ih := applyRulesLoop_counts da true rest content
            simp [applyRulesLoop, ruleCountsSeq, h, hne, ih.1, ih.2, List.countP_cons]
        | false =>
            have ih := applyRulesLoop_counts da false rest
              (reSub true da r.pattern r.repl content)
            simp [applyRulesLoop, ruleCountsSeq, h, hne, ih.1, ih.2, List.countP_cons]
      · have h0 : reCount true da r.pattern content = 0 := Nat.eq_zero_of_not_pos h
        have ih := applyRulesLoop_counts da dry rest content
        simp [applyRulesLoop, ruleCountsSeq, h, h0, ih.1, ih.2, List.countP_cons]

theorem applyRulesLoop_changes_ne_nil (da dry : Bool) :
    ∀ (rules : List PRule) (content : List Char),
      0 < (applyRulesLoop da dry content rules).applied →
      (applyRulesLoop da dry content rules).changes ≠ []
  | [], content => by simp [applyRulesLoop]
  | r :: rest, content => by
      by_cases h : 0 < reCount true da r.pattern content
      · simp [applyRulesLoop, h]
      · have ih := applyRulesLoop_changes_ne_nil da dry rest content
        simp [applyRulesLoop, h]
        exact ih

theorem applyRulesLoop_no_match (da dry : Bool) :
    ∀ (rules : List PRule) (content : List Char),
      (∀ m ∈ ruleCountsSeq da dry content rules, m = 0) →
      applyRulesLoop da dry content rules = ⟨content, 0, rules.length, []⟩
  | [], content => by simp [applyRulesLoop]
  | r :: rest, content => by
      intro hz
      have h0 : reCount true da r.pattern content = 0 := by
        have := hz (reCount true da r.pattern content)
        apply this
        simp [ruleCountsSeq]
      have hrest : ∀ m ∈ ruleCountsSeq da dry content rest, m = 0 := by
        intro m hm
        apply hz
        simp [ruleCountsSeq, h0]
        right
        simpa [h0] using hm
      have ih := applyRulesLoop_no_match da dry rest content hrest
      simp [applyRulesLoop, h0, ih]

theorem applyRulesLoop_dry (da : Bool) :
    ∀ (rules : List PRule) (content : List Char),
      (applyRulesLoop da true content rules).content = content ∧
      (applyRulesLoop da true content rules).changes =
        rules.filterMap (fun r =>
          if 0 < reCount true da r.pattern content then
            some (r.name, reCount true da r.pattern content)
          else none) ∧
      ruleCountsSeq da true content rules =
        rules.map (fun r => reCount true da r.pattern content)
  | [], content => by simp [applyRulesLoop, ruleCountsSeq]
  | r :: rest, content => by
      have ih := applyRulesLoop_dry da rest content
      by_cases h : 0 < reCount true da r.pattern content
      · simp [applyRulesLoop, ruleCountsSeq, h, ih.1, ih.2.1, ih.2.2]
      · simp [applyRulesLoop, ruleCountsSeq, h, ih.1, ih.2.1, ih.2.2]

/-!
## Helper lemmas about the file-level step and the run
-/

theorem applyPatchesToFile_dry_fs (da : Bool) (w : String → Bool)
    (fs : FS) (fp : String) (ps : List PRule) :
    (applyPatchesToFile da true w fs fp ps).fs = fs := by
  unfold applyPatchesToFile
  cases h : fsLookup fs fp with
  | none => simp
  | some content => simp

theorem applyPatchesToFile_counts (da dry : Bool) (w : String → Bool)
    (fs : FS) (fp : String) (ps : List PRule) :
    (applyPatchesToFile da dry w fs fp ps).applied =
      (match fsLookup fs fp with
       | none => ([] : List Nat)
       | some c => ruleCountsSeq da dry c ps).sum ∧
    (applyPatchesToFile da dry w fs fp ps).skipped =
      (match fsLookup fs fp with
       | none => ([] : List Nat)
       | some c => ruleCountsSeq da dry c ps).countP (· == 0) := by
  unfold applyPatchesToFile
  cases h : fsLookup fs fp with
  | none => simp
  | some content =>
      have hc := applyRulesLoop_counts da dry ps content
      simp [hc.1, hc.2]

theorem runUnits_counts (da dry : Bool) (w : String → Bool) :
    ∀ (units : List (String × List PRule)) (fs : FS) (acc : PatchResult),
      (runUnits da dry w fs acc units).2.applied =
        acc.applied + (runPairCounts da dry w fs units).sum ∧
      (runUnits da dry w fs acc units).2.skipped =
        acc.skipped + (runPairCounts da dry w fs units).countP (· == 0)
  | [], fs, acc => by simp [runUnits, runPairCounts]
  | (fp, ps) :: rest, fs, acc => by
      have hfile := applyPatchesToFile_counts da dry w fs fp ps
      have ih := runUnits_counts da dry w rest
        (applyPatchesToFile da dry w fs fp ps).fs
        ⟨acc.applied + (applyPatchesToFile da dry w fs fp ps).applied,
         acc.skipped + (applyPatchesToFile da dry w fs fp ps).skipped,
         acc.errors ++ (applyPatchesToFile da dry w fs fp ps).errors,
         acc.details ++ (applyPatchesToFile da dry w fs fp ps).details⟩
      simp only [runUnits, runPairCounts]
      constructor
      · rw [ih.1]
        simp [hfile.1, Nat.add_assoc]
      · rw [ih.2]
        simp [hfile.2, Nat.add_assoc]

theorem runUnits_dry_fs (da : Bool) (w : String → Bool) :
    ∀ (units : List (String × List PRule)) (fs : FS) (acc : PatchResult),
      (runUnits da true w fs acc units).1 = fs
  | [], fs, acc => by simp [runUnits]
  | (fp, ps) :: rest, fs, acc => by
      have hfs := applyPatchesToFile_dry_fs da w fs fp ps
      simp only [runUnits]
      rw [hfs] at *
      have ih := runUnits_dry_fs da w rest fs
      simp [hfs, ih]

/-- The V3X write-failure invariant: a positive `failed` counter is always
accompanied by a non-empty error list. -/
theorem v3xApplyFile_inv (dry : Bool) (w : String → Bool) (fs : FS)
    (st : V3XState) (fp : String) (ps : List PRule)
    (h : st.failed = 0 ∨ st.errors ≠ []) :
    (v3xApplyFile dry w fs st fp ps).2.failed = 0 ∨
      (v3xApplyFile dry w fs st fp ps).2.errors ≠ [] := by
  unfold v3xApplyFile
  cases hl : fsLookup fs fp with
  | none => simpa using h
  | some content =>
      cases dry with
      | true => simpa using h
      | false =>
          by_cases hc : (applyRulesLoop false false content ps).content = content
          · simpa [hc] using h
          · by_cases hw : w fp = true
            · simpa [hc, hw] using h
            · simp only [Bool.not_eq_true] at hw
              simp [hc, hw]

theorem v3xRun_inv (dry : Bool) (w : String → Bool) :
    ∀ (units : List (String × List PRule)) (fs : FS) (st : V3XState),
      (st.failed = 0 ∨ st.errors ≠ []) →
      ((v3xRun dry w fs st units).2.failed = 0 ∨
        (v3xRun dry w fs st units).2.errors ≠ [])
  | [], fs, st => by intro h; simpa [v3xRun] using h
  | (fp, ps) :: rest, fs, st => by
      intro h
      have hstep := v3xApplyFile_inv dry w fs st fp ps h
      simpa [v3xRun] using
        v3xRun_inv dry w rest (v3xApplyFile dry w fs st fp ps).1
          (v3xApplyFile dry w fs st fp ps).2 hstep

/-!
## Claim theorems
-/

/--
C1 counterexample: in the §8 scenario, the first non-dry-run pass of
`RESOURCE_BINDING_PATCHES` over `device.c` rewrites the assignment to
`D3D12_RESOURCE_BINDING_TIER_3` with matchCount 1, but the second pass
reports appliedCount 1 again, not 0 as the claim states: the pattern
`([^;]+);` also matches the already-correct value.
-/
theorem c1_second_pass_counterexample :
    c1FirstPass.applied = 1 ∧
    fsLookup c1FirstPass.fs ("device.c") = some deviceLine3.data ∧
    c1SecondPass.applied ≠ 0 ∧
    c1SecondPass.applied = 1 := by decide

/--
C1 amended: the first pass rewrites the assignment to TIER_3 and reports
matchCount 1; the second pass over the rewritten file again reports
matchCount 1 for `resource_binding_tier` but is a textual no-op — the
substitution reproduces the same content, so the file on disk is
unchanged and no error is recorded (content idempotence, not count
idempotence).
-/
theorem c1_second_pass_noop :
    c1FirstPass.applied = 1 ∧
    c1FirstPass.details = [⟨("device.c"), [(("resource_binding_tier"), 1)]⟩] ∧
    fsLookup c1FirstPass.fs ("device.c") = some deviceLine3.data ∧
    c1SecondPass.applied = 1 ∧
    c1SecondPass.details = [⟨("device.c"), [(("resource_binding_tier"), 1)]⟩] ∧
    c1SecondPass.fs = c1FirstPass.fs ∧
    c1SecondPass.errors = [] := by decide

def c2FS : FS := [(("f.c"), ("ab").data)]

/--
C2 counterexample: for the two-rule set `ab→cd`, `cd→ef` on content
`ab`, dry-run reports per-rule counts (r1,1) only, while a non-dry-run
application reports (r1,1),(r2,1): the second rule matches the output of
the first, which exists only when substitution actually happens.  The
reported FileChangeRecords therefore differ between the two modes.
-/
theorem c2_dry_run_counterexample :
    (applyRulesLoop false true ("ab").data [c2r1, c2r2]).changes = [(("r1"), 1)] ∧
    (applyRulesLoop false false ("ab").data [c2r1, c2r2]).changes =
      [(("r1"), 1), (("r2"), 1)] ∧
    (applyRulesLoop false true ("ab").data [c2r1, c2r2]).changes ≠
      (applyRulesLoop false false ("ab").data [c2r1, c2r2]).changes ∧
    (vkd3dApplyFile true allWritesOk c2FS ("f.c") [c2r1, c2r2]).details ≠
      (vkd3dApplyFile false allWritesOk c2FS ("f.c") [c2r1, c2r2]).details := by decide

/--
C2 amended: dry-run never mutates any file on disk, for any rule set and
any input; every rule's dry-run match count is its count against the
original input content; and the dry-run counts equal the non-dry-run
counts for single-rule sets (in general they can differ, because
non-dry-run later rules see earlier substitutions).
-/
theorem c2_dry_run_amended (da : Bool) (w : String → Bool) :
    (∀ (fs : FS) (units : List (String × List PRule)),
        (runUnits da true w fs emptyResult units).1 = fs) ∧
    (∀ (content : List Char) (rules : List PRule),
        (applyRulesLoop da true content rules).content = content ∧
        (applyRulesLoop da true content rules).changes =
          rules.filterMap (fun r =>
            if 0 < reCount true da r.pattern content then
              some (r.name, reCount true da r.pattern content)
            else none)) ∧
    (∀ (content : List Char) (r : PRule),
        (applyRulesLoop da true content [r]).changes =
          (applyRulesLoop da false content [r]).changes ∧
        (applyRulesLoop da true content [r]).applied =
          (applyRulesLoop da false content [r]).applied) := by
  refine ⟨fun fs units => runUnits_dry_fs da w units fs emptyResult,
    fun content rules =>
      ⟨(applyRulesLoop_dry da rules content).1, (applyRulesLoop_dry da rules content).2.1⟩,
    fun content r => ?_⟩
  by_cases h : 0 < reCount true da r.pattern content <;>
    simp [applyRulesLoop, h]

/--
C3: after any run, the accumulated appliedCount is the sum over all
processed (file, rule) pairs of that pair's match count, and the
accumulated skippedCount is the number of such pairs whose match count
is zero (a missing file contributes no pairs, per its zero-count early
return).
-/
theorem c3_count_accounting (da dry : Bool) (w : String → Bool)
    (fs : FS) (units : List (String × List PRule)) :
    (runUnits da dry w fs emptyResult units).2.applied =
      (runPairCounts da dry w fs units).sum ∧
    (runUnits da dry w fs emptyResult units).2.skipped =
      (runPairCounts da dry w fs units).countP (· == 0) := by
  have h := runUnits_counts da dry w units fs emptyResult
  simpa [emptyResult] using h

def nlFS : FS := [(("f.c"), ("a\nb").data)]

/--
C4 counterexample: a rule whose pattern contains `a.b` applied to the
two-line content `a\nb` matches once under the performance.py engine
(compiled with re.MULTILINE|re.DOTALL) but zero times under the
patches/patcher.py and scripts/patcher.py engines (compiled with
re.MULTILINE only): dot-matches-newline does NOT hold in every
implementation.
-/
theorem c4_flags_counterexample :
    (vkd3dApplyFile false allWritesOk nlFS ("f.c") [dotRule]).applied = 0 ∧
    (v3xApplyFile false allWritesOk nlFS v3xInit ("f.c") [dotRule]).2.applied = 0 ∧
    (perfApplyFile false allWritesOk nlFS ("f.c") [dotRule]).applied = 1 := by decide

def abFS : FS := [(("f.c"), ("ab ab").data)]

/--
C4 amended: in every implementation matching is global (all
non-overlapping occurrences are counted and substituted) and multiline
(`^` matches after each newline); dot-matches-newline holds only in the
performance.py implementation, the other two compile with re.MULTILINE
alone.
-/
theorem c4_flags_amended :
    (vkd3dApplyFile false allWritesOk abFS ("f.c") [abRule]).applied = 2 ∧
    fsLookup (vkd3dApplyFile false allWritesOk abFS ("f.c") [abRule]).fs ("f.c") =
      some ("X X").data ∧
    (perfApplyFile false allWritesOk abFS ("f.c") [abRule]).applied = 2 ∧
    fsLookup (perfApplyFile false allWritesOk abFS ("f.c") [abRule]).fs ("f.c") =
      some ("X X").data ∧
    (v3xApplyFile false allWritesOk abFS v3xInit ("f.c") [abRule]).2.applied = 2 ∧
    fsLookup (v3xApplyFile false allWritesOk abFS v3xInit ("f.c") [abRule]).1 ("f.c") =
      some ("X X").data ∧
    (vkd3dApplyFile false allWritesOk nlFS ("f.c") [bolRule]).applied = 1 ∧
    (perfApplyFile false allWritesOk nlFS ("f.c") [bolRule]).applied = 1 ∧
    (v3xApplyFile false allWritesOk nlFS v3xInit ("f.c") [bolRule]).2.applied = 1 ∧
    (perfApplyFile false allWritesOk nlFS ("f.c") [dotRule]).applied = 1 ∧
    (vkd3dApplyFile false allWritesOk nlFS ("f.c") [dotRule]).applied = 0 ∧
    (v3xApplyFile false allWritesOk nlFS v3xInit ("f.c") [dotRule]).2.applied = 0 := by
  decide

/--
C5: for a readable file in which no rule of the applied set matches (all
sequential match counts are zero), the file system is unchanged (no
write occurs), no FileChangeRecord is emitted, appliedCount is zero and
no error is recorded — in the patches/performance engine (first group of
conclusions) and in the scripts engine (second group).
-/
theorem c5_no_match_frame (da dry : Bool) (w : String → Bool) (fs : FS)
    (st : V3XState) (fp : String) (ps : List PRule) (content : List Char)
    (hread : fsLookup fs fp = some content)
    (hzero : ∀ m ∈ ruleCountsSeq da dry content ps, m = 0)
    (hzeroMl : ∀ m ∈ ruleCountsSeq false dry content ps, m = 0) :
    (applyPatchesToFile da dry w fs fp ps).fs = fs ∧
    (applyPatchesToFile da dry w fs fp ps).details = [] ∧
    (applyPatchesToFile da dry w fs fp ps).applied = 0 ∧
    (applyPatchesToFile da dry w fs fp ps).errors = [] ∧
    (v3xApplyFile dry w fs st fp ps).1 = fs ∧
    (v3xApplyFile dry w fs st fp ps).2.details = st.details ∧
    (v3xApplyFile dry w fs st fp ps).2.errors = st.errors := by
  have hl := applyRulesLoop_no_match da dry ps content hzero
  have hl2 := applyRulesLoop_no_match false dry ps content hzeroMl
  refine ⟨?_, ?_, ?_, ?_, ?_, ?_, ?_⟩ <;>
    simp [applyPatchesToFile, v3xApplyFile, hread, hl, hl2]

def plainFS : FS := [(("plain.c"), ("xyz").data)]

/-- C5 witness: no `RESOURCE_BINDING_PATCHES` rule matches `xyz`. -/
theorem c5_no_match_frame_witness :
    (applyPatchesToFile false false allWritesOk plainFS ("plain.c")
        RESOURCE_BINDING_PATCHES).fs = plainFS ∧
    (applyPatchesToFile false false allWritesOk plainFS ("plain.c")
        RESOURCE_BINDING_PATCHES).details = [] ∧
    (applyPatchesToFile false false allWritesOk plainFS ("plain.c")
        RESOURCE_BINDING_PATCHES).applied = 0 ∧
    (applyPatchesToFile false false allWritesOk plainFS ("plain.c")
        RESOURCE_BINDING_PATCHES).errors = [] ∧
    (v3xApplyFile false allWritesOk plainFS v3xInit ("plain.c")
        RESOURCE_BINDING_PATCHES).1 = plainFS ∧
    (v3xApplyFile false allWritesOk plainFS v3xInit ("plain.c")
        RESOURCE_BINDING_PATCHES).2.details = v3xInit.details ∧
    (v3xApplyFile false allWritesOk plainFS v3xInit ("plain.c")
        RESOURCE_BINDING_PATCHES).2.errors = v3xInit.errors :=
  c5_no_match_frame false false allWritesOk plainFS v3xInit ("plain.c")
    RESOURCE_BINDING_PATCHES ("xyz").data (by decide) (by decide) (by decide)

/--
C6: within one non-dry-run pass over one content buffer, rules are
applied sequentially in listed order — splitting the rule list anywhere,
the second segment runs on the buffer the first segment produced, and
the counts and change records compose additively.
-/
theorem c6_sequential_composition (da : Bool) :
    ∀ (ps1 ps2 : List PRule) (content : List Char),
      applyRulesLoop da false content (ps1 ++ ps2) =
        ⟨(applyRulesLoop da false
            (applyRulesLoop da false content ps1).content ps2).content,
         (applyRulesLoop da false content ps1).applied +
           (applyRulesLoop da false
             (applyRulesLoop da false content ps1).content ps2).applied,
         (applyRulesLoop da false content ps1).skipped +
           (applyRulesLoop da false
             (applyRulesLoop da false content ps1).content ps2).skipped,
         (applyRulesLoop da false content ps1).changes ++
           (applyRulesLoop da false
             (applyRulesLoop da false content ps1).content ps2).changes⟩
  | [], ps2, c => by simp [applyRulesLoop]
  | r :: rest, ps2, c => by
      by_cases h : 0 < reCount true da r.pattern c
      · have ih := c6_sequential_composition da rest ps2
          (reSub true da r.pattern r.repl c)
        simp [applyRulesLoop, h, ih, Nat.add_assoc]
      · have ih := c6_sequential_composition da rest ps2 c
        simp [applyRulesLoop, h, ih]
        omega

/--
C7: when the write-back of a rewritten file fails, exactly one
write-error descriptor is recorded for that file, the file on disk keeps
its old content, and the applied/skipped counts and change records equal
those of the same application with a succeeding write: the tallies are
not reverted.
-/
theorem c7_write_failure (da : Bool) (w : String → Bool) (fs : FS) (fp : String)
    (ps : List PRule) (content : List Char)
    (hread : fsLookup fs fp = some content)
    (hfail : w fp = false)
    (hchanged : (applyRulesLoop da false content ps).content ≠ content) :
    (applyPatchesToFile da false w fs fp ps).errors = [("write error ") ++ fp] ∧
    (applyPatchesToFile da false w fs fp ps).fs = fs ∧
    (applyPatchesToFile da false w fs fp ps).applied =
      (applyPatchesToFile da false allWritesOk fs fp ps).applied ∧
    (applyPatchesToFile da false w fs fp ps).skipped =
      (applyPatchesToFile da false allWritesOk fs fp ps).skipped ∧
    (applyPatchesToFile da false w fs fp ps).details =
      (applyPatchesToFile da false allWritesOk fs fp ps).details := by
  refine ⟨?_, ?_, ?_, ?_, ?_⟩ <;>
    simp [applyPatchesToFile, allWritesOk, hread, hchanged, hfail]

/-- C7 witness: the §8 scenario with every write failing. -/
theorem c7_write_failure_witness :
    (applyPatchesToFile false false noWritesOk deviceFS ("device.c")
        RESOURCE_BINDING_PATCHES).errors = [("write error ") ++ "device.c"] ∧
    (applyPatchesToFile false false noWritesOk deviceFS ("device.c")
        RESOURCE_BINDING_PATCHES).fs = deviceFS ∧
    (applyPatchesToFile false false noWritesOk deviceFS ("device.c")
        RESOURCE_BINDING_PATCHES).applied =
      (applyPatchesToFile false false allWritesOk deviceFS ("device.c")
        RESOURCE_BINDING_PATCHES).applied ∧
    (applyPatchesToFile false false noWritesOk deviceFS ("device.c")
        RESOURCE_BINDING_PATCHES).skipped =
      (applyPatchesToFile false false allWritesOk deviceFS ("device.c")
        RESOURCE_BINDING_PATCHES).skipped ∧
    (applyPatchesToFile false false noWritesOk deviceFS ("device.c")
        RESOURCE_BINDING_PATCHES).details =
      (applyPatchesToFile false false allWritesOk deviceFS ("device.c")
        RESOURCE_BINDING_PATCHES).details :=
  c7_write_failure false noWritesOk deviceFS ("device.c")
    RESOURCE_BINDING_PATCHES deviceLine1.data (by decide) rfl (by decide)

/--
C8: applying any rule set to a path that is not in the file system
returns zero applied and zero skipped counts, records no error and
emits no change record, in both the patches/performance engine and the
scripts engine (whose state is returned untouched).
-/
theorem c8_missing_file (da dry : Bool) (w : String → Bool) (fs : FS)
    (st : V3XState) (fp : String) (ps : List PRule)
    (hmiss : fsLookup fs fp = none) :
    applyPatchesToFile da dry w fs fp ps = ⟨fs, 0, 0, [], []⟩ ∧
    v3xApplyFile dry w fs st fp ps = (fs, st) := by
  constructor <;> simp [applyPatchesToFile, v3xApplyFile, hmiss]

/-- C8 witness: the empty file system has no `missing.c`. -/
theorem c8_missing_file_witness :
    applyPatchesToFile false false allWritesOk [] ("missing.c")
        RESOURCE_BINDING_PATCHES = ⟨[], 0, 0, [], []⟩ ∧
    v3xApplyFile false allWritesOk [] v3xInit ("missing.c")
        RESOURCE_BINDING_PATCHES = ([], v3xInit) :=
  c8_missing_file false false allWritesOk [] v3xInit ("missing.c")
    RESOURCE_BINDING_PATCHES rfl

/--
C9: the process exit status is 0 exactly when the run accumulated no
errors — for the patches/performance runs and for the scripts run (where
`failed` can only be positive alongside a recorded write error) — and in
the §8 scenario with a failing write the exit status is 1 even though
the match was tallied (appliedCount 1).
-/
theorem c9_exit_status :
    (∀ (da dry : Bool) (w : String → Bool) (fs : FS)
        (units : List (String × List PRule)),
        exitCode (runUnits da dry w fs emptyResult units).2 = 0 ↔
          (runUnits da dry w fs emptyResult units).2.errors = []) ∧
    (∀ (dry : Bool) (w : String → Bool) (fs : FS)
        (units : List (String × List PRule)),
        v3xExit (v3xRun dry w fs v3xInit units).2 = 0 ↔
          (v3xRun dry w fs v3xInit units).2.errors = []) ∧
    exitCode (runUnits false false noWritesOk deviceFS emptyResult
        [(("device.c"), RESOURCE_BINDING_PATCHES)]).2 = 1 ∧
    (runUnits false false noWritesOk deviceFS emptyResult
        [(("device.c"), RESOURCE_BINDING_PATCHES)]).2.applied = 1 := by
  refine ⟨?_, ?_, by decide, by decide⟩
  · intro da dry w fs units
    by_cases he : (runUnits da dry w fs emptyResult units).2.errors = [] <;>
      simp [exitCode, he]
  · intro dry w fs units
    have hinv := v3xRun_inv dry w units fs v3xInit (Or.inl rfl)
    constructor
    · intro h0
      by_cases hc : (v3xRun dry w fs v3xInit units).2.failed = 0 ∧
          (v3xRun dry w fs v3xInit units).2.errors = []
      · exact hc.2
      · simp [v3xExit, hc] at h0
    · intro he
      have hf : (v3xRun dry w fs v3xInit units).2.failed = 0 := by
        cases hinv with
        | inl h => exact h
        | inr h => exact absurd he h
      simp [v3xExit, hf, he]

/--
C10: when some rule matches but the substituted buffer is textually
identical to the original content (a no-op rewrite), the run still
counts the matches in appliedCount and emits a FileChangeRecord for the
file, while performing no disk write and recording no error.
-/
theorem c10_noop_rewrite (da : Bool) (w : String → Bool) (fs : FS) (fp : String)
    (ps : List PRule) (content : List Char)
    (hread : fsLookup fs fp = some content)
    (hnoop : (applyRulesLoop da false content ps).content = content)
    (hpos : 0 < (applyRulesLoop da false content ps).applied) :
    (applyPatchesToFile da false w fs fp ps).applied =
      (applyRulesLoop da false content ps).applied ∧
    (applyPatchesToFile da false w fs fp ps).details =
      [⟨basename fp, (applyRulesLoop da false content ps).changes⟩] ∧
    (applyRulesLoop da false content ps).changes ≠ [] ∧
    (applyPatchesToFile da false w fs fp ps).fs = fs ∧
    (applyPatchesToFile da false w fs fp ps).errors = [] := by
  have hne := applyRulesLoop_changes_ne_nil da false ps content hpos
  refine ⟨?_, ?_, hne, ?_, ?_⟩ <;>
    simp [applyPatchesToFile, hread, hnoop, hne]

def deviceFS3 : FS := [(("device.c"), deviceLine3.data)]

/-- C10 witness: the already-rewritten TIER_3 line, where
`resource_binding_tier` matches once and substitutes the same text. -/
theorem c10_noop_rewrite_witness :
    (applyPatchesToFile false false allWritesOk deviceFS3 ("device.c")
        RESOURCE_BINDING_PATCHES).applied =
      (applyRulesLoop false false deviceLine3.data RESOURCE_BINDING_PATCHES).applied ∧
    (applyPatchesToFile false false allWritesOk deviceFS3 ("device.c")
        RESOURCE_BINDING_PATCHES).details =
      [⟨basename ("device.c"),
        (applyRulesLoop false false deviceLine3.data RESOURCE_BINDING_PATCHES).changes⟩] ∧
    (applyRulesLoop false false deviceLine3.data RESOURCE_BINDING_PATCHES).changes ≠ [] ∧
    (applyPatchesToFile false false allWritesOk deviceFS3 ("device.c")
        RESOURCE_BINDING_PATCHES).fs = deviceFS3 ∧
    (applyPatchesToFile false false allWritesOk deviceFS3 ("device.c")
        RESOURCE_BINDING_PATCHES).errors = [] :=
  c10_noop_rewrite false allWritesOk deviceFS3 ("device.c")
    RESOURCE_BINDING_PATCHES deviceLine3.data (by decide) (by decide) (by decide)
